import Mathlib

/-!
Verification of the supplier-recommendation and scoring engine

Shallow embedding, in Lean 4, of the core of the `felipedsvit/app` backend:

* `backend/app/services/recomendador.py` — the class `RecomendadorFornecedores`
  (text preprocessing, training, recommendation ranking, persistence, evaluation);
* `backend/app/worker/tasks.py` — the per-proposal suitability score computed
  inside `calculate_supplier_scores`.

Modelling conventions:

* Python floats are modelled as exact rationals (`ℚ`); the numeric formulas of
  the source are translated literally.
* The external libraries (`sentence_transformers`, `sklearn`) are modelled by a
  parameter record `Libs`: `SentenceTransformer.encode`,
  `TfidfVectorizer.fit`/`transform` and `cosine_similarity` are opaque functions
  supplied by the environment.  `numpy.argsort` is modelled concretely as the
  ascending argsort with ties in index order; numpy's default sort specifies no
  tie order in general, so every result below that depends on the order of tied
  elements is confined to arrays of at most two elements, where numpy provably
  runs a stable insertion sort.
* Fallible Python code is modelled with `Except`/explicit flags: an exception
  that escapes a function becomes an `Except.error`; an exception that is caught
  inside the function (`try/except` with logging) is modelled by the normal return
  value of the caught branch.
* `datetime.now()` and the availability of the sentence-transformer model are
  environment inputs (`now : ℕ`, `env : ℕ → Option S`).
-/

/-! Section: Data records

`fornecedores` / `licitacoes` are plain dicts in the source; the fields below are
exactly the keys read by the engine (read via `dict.get(key, "")` — a missing key is the
empty string). -/

/-- A supplier record, as consumed by `RecomendadorFornecedores.treinar`. -/
structure Fornecedor where
  id : String
  razao_social : String
  descricao : String
  area_atuacao : String
  especialidades : String
  palavras_chave : String
deriving DecidableEq, Repr

/-- Default supplier record (all keys absent). -/
def fornecedorDefault : Fornecedor := ⟨"", "", "", "", "", ""⟩

/-- A bid record, as consumed by `RecomendadorFornecedores.recomendar`. -/
structure Licitacao where
  titulo : String
  descricao : String
  objeto : String
  palavras_chave : String
deriving DecidableEq, Repr

/-- One entry of the list returned by `recomendar`:
a dict with keys `fornecedor`, `pontuacao`, `ranking`. -/
structure Recomendacao where
  fornecedor : Fornecedor
  pontuacao : ℚ
  ranking : Nat
deriving DecidableEq, Repr

/-- Python exceptions that can escape the modelled methods:
`NotFittedError` from `TfidfVectorizer.transform` on an unfitted vectorizer,
and `ZeroDivisionError` from the averaging step of `avaliar_recomendacoes`. -/
inductive PyError where
  | notFitted
  | zeroDivision
deriving DecidableEq, Repr

/-! Section: Text preprocessing (`preprocessar_texto`, recomendador.py lines 53-78)

The Python uses `str.lower`, then `re.sub` with pattern "[^\w\s]", then
with pattern "\d+", then with pattern "\s+" followed by `strip()`.  The model
works on the character list of the string and covers the ASCII behaviour of
the regexes (`\w` = letter, digit or underscore; `\s` = whitespace;
`\d` = digit). -/

/-- A character matched by the regex class `\w` (ASCII): letter, digit or `_`. -/
def pyIsWordChar (c : Char) : Bool :=
  c.isAlpha || c.isDigit || c = '_'

/-- Model of `re.sub` with pattern "[^\w\s]": every character that is neither a word
character nor whitespace is replaced by a space. -/
def subNonWord (l : List Char) : List Char :=
  l.map (fun c => if pyIsWordChar c || c.isWhitespace then c else ' ')

/-- Helper for `subDigitRuns`: the flag records whether the previous character
was a digit (i.e. whether we are inside a digit run already emitted). -/
def subDigitRunsAux : Bool → List Char → List Char
  | _, [] => []
  | inRun, c :: cs =>
    if c.isDigit then
      if inRun then subDigitRunsAux true cs
      else ' ' :: subDigitRunsAux true cs
    else c :: subDigitRunsAux false cs

/-- Model of `re.sub` with pattern "\d+": every maximal run of digits is replaced by a
single space. -/
def subDigitRuns (l : List Char) : List Char :=
  subDigitRunsAux false l

/-- Helper for `collapseWhitespace`: the flag records whether the previous
character was whitespace (inside a run already emitted). -/
def collapseWhitespaceAux : Bool → List Char → List Char
  | _, [] => []
  | inRun, c :: cs =>
    if c.isWhitespace then
      if inRun then collapseWhitespaceAux true cs
      else ' ' :: collapseWhitespaceAux true cs
    else c :: collapseWhitespaceAux false cs

/-- Model of `re.sub` with pattern "\s+": every maximal run of whitespace is replaced by a
single space. -/
def collapseWhitespace (l : List Char) : List Char :=
  collapseWhitespaceAux false l

/-- Python `str.strip()`: remove leading and trailing whitespace. -/
def pyStrip (l : List Char) : List Char :=
  ((l.dropWhile Char.isWhitespace).reverse.dropWhile Char.isWhitespace).reverse

/-- Model of `RecomendadorFornecedores.preprocessar_texto` (recomendador.py 53-78). -/
def preprocessar_texto (texto : String) : String :=
  if texto.isEmpty then ""
  else
    String.mk (pyStrip (collapseWhitespace
      (subDigitRuns (subNonWord (texto.data.map Char.toLower)))))

/-- Concatenation (join with one space) of the five supplier text fields read by `treinar`
(recomendador.py 110-116). -/
def textoFornecedor (f : Fornecedor) : String :=
  String.intercalate (" ")
    [f.razao_social, f.descricao, f.area_atuacao, f.especialidades, f.palavras_chave]

/-- Concatenation (join with one space) of the four bid text fields read by `recomendar`
(recomendador.py 156-161). -/
def textoLicitacao (lic : Licitacao) : String :=
  String.intercalate (" ") [lic.titulo, lic.descricao, lic.objeto, lic.palavras_chave]

/-! Section: The similarity ranking step (`recomendar`, recomendador.py 175-190)

`indices_top = similaridades.argsort()[-top_n:][::-1]` followed by the
enumeration loop that builds the recommendation dicts. -/

/-- The comparison used to model `numpy.argsort` on the similarity array:
index `i` comes before index `j` when its similarity is smaller, with ties
broken by the original index (stable ascending sort). -/
def argRel (sims : List ℚ) (i j : Nat) : Prop :=
  sims.getD i 0 < sims.getD j 0 ∨ (sims.getD i 0 = sims.getD j 0 ∧ i ≤ j)

instance (sims : List ℚ) : DecidableRel (argRel sims) := fun _ _ =>
  inferInstanceAs (Decidable (_ ∨ _))

/-- Model of `similaridades.argsort()`: the indices `0, …, n-1` sorted in
ascending order of similarity, ties in index order.  Caveat: numpy's default
sort (introsort) documents no tie order in general; only below its small-array
cutoff does it run an insertion sort, which is stable, giving exactly this
ascending-index tie order.  The model fixes that order to stay executable;
every theorem below that depends on the order of tied elements is therefore
stated or instantiated only for similarity arrays of at most two elements,
where the insertion-sort behavior is exact, and all other theorems use only
properties (length, membership, sortedness, permutation) shared by every valid
ascending sort. -/
def argsortAsc (sims : List ℚ) : List Nat :=
  List.insertionSort (argRel sims) (List.range sims.length)

/-- Model of the Python slice `a[-k:]`: for `k = 0` the whole list (`a[-0:]` is `a[0:]`),
otherwise the last `min k (length a)` elements. -/
def lastSlice (k : Nat) (l : List α) : List α :=
  if k = 0 then l else l.drop (l.length - k)

/-- Model of `similaridades.argsort()[-top_n:][::-1]` (recomendador.py 176). -/
def indicesTop (sims : List ℚ) (top_n : Nat) : List Nat :=
  (lastSlice top_n (argsortAsc sims)).reverse

/-- The loop `for i, idx in enumerate(indices_top): if idx < len(...): append`
(recomendador.py 180-187).  `i` advances with the enumeration whether or not
the guard fires; `ranking` is `i + 1` and `pontuacao` is
`similaridades[idx] * 100`. -/
def buildRecs (dados : List Fornecedor) (sims : List ℚ) : Nat → List Nat → List Recomendacao
  | _, [] => []
  | i, idx :: rest =>
    if idx < dados.length then
      ⟨dados.getD idx fornecedorDefault, sims.getD idx 0 * 100, i + 1⟩ ::
        buildRecs dados sims (i + 1) rest
    else buildRecs dados sims (i + 1) rest

/-- The full ranking step of `recomendar`: top indices, then the enumeration
loop building the recommendation records. -/
def recomendacoesOf (dados : List Fornecedor) (sims : List ℚ) (top_n : Nat) :
    List Recomendacao :=
  buildRecs dados sims 0 (indicesTop sims top_n)

/-! Section: The model class (`RecomendadorFornecedores`)

The class owns: the optional sentence transformer, the (possibly fitted)
`TfidfVectorizer`, the trained corpus (`fornecedores_vetores`,
`fornecedores_dados`) and the training timestamp.  The external libraries are
a parameter record `Libs`; `V` is the vector type, `S` the loaded
sentence-transformer model, `T` the fitted state of a `TfidfVectorizer`. -/

/-- The external libraries used by `recomendador.py`, as opaque functions:
`SentenceTransformer.encode` on one text, `TfidfVectorizer.fit` (the fitted
vocabulary produced by `fit_transform`), `transform` of a fitted vectorizer
on one text, and `sklearn.metrics.pairwise.cosine_similarity` of two vectors.
`fit_transform(texts)` is modelled as `fit` followed by elementwise
`transform`. -/
structure Libs (V S T : Type) where
  stEncode : S → String → V
  tfidfFit : List String → T
  tfidfTransform : T → String → V
  cosSim : V → V → ℚ

/-- The mutable state of a `RecomendadorFornecedores` instance.
`vectorizer_fitted = none` models a freshly constructed, unfitted
`TfidfVectorizer`.  `st_init_attempts` is a history variable counting how many
times `_inicializar_sentence_transformer` has constructed (or tried to
construct) a `SentenceTransformer` in this process. -/
structure Modelo (V S T : Type) where
  sentence_transformer : Option S
  vectorizer_fitted : Option T
  fornecedores_vetores : Option (List V)
  fornecedores_dados : Option (List Fornecedor)
  ultimo_treinamento : Option Nat
  st_init_attempts : Nat

/-- State of `RecomendadorFornecedores()` with no `modelo_path`: nothing trained, fresh
unfitted vectorizer, no sentence transformer loaded yet. -/
def freshModelo {V S T : Type} : Modelo V S T :=
  ⟨none, none, none, none, none, 0⟩

/-- Model of `_inicializar_sentence_transformer` (recomendador.py 80-92): tries to
construct the `SentenceTransformer`; on an exception it logs and leaves the
field `None` (the TF-IDF fallback).  `env n` is the outcome of the `n`-th
construction attempt in this process. -/
def inicializar_sentence_transformer {V S T : Type} (env : Nat → Option S)
    (m : Modelo V S T) : Modelo V S T :=
  { m with sentence_transformer := env m.st_init_attempts,
           st_init_attempts := m.st_init_attempts + 1 }

/-- Model of `RecomendadorFornecedores.treinar` (recomendador.py 94-136).  `now` models
`datetime.now()`. -/
def treinar {V S T : Type} (ctx : Libs V S T) (env : Nat → Option S)
    (m : Modelo V S T) (fornecedores : List Fornecedor) (now : Nat) : Modelo V S T :=
  if fornecedores.isEmpty then m
  else
    let textos := fornecedores.map (fun f => preprocessar_texto (textoFornecedor f))
    let m1 := if m.sentence_transformer.isNone
              then inicializar_sentence_transformer env m else m
    match m1.sentence_transformer with
    | some st =>
        { m1 with fornecedores_vetores := some (textos.map (ctx.stEncode st)),
                  fornecedores_dados := some fornecedores,
                  ultimo_treinamento := some now }
    | none =>
        let tf := ctx.tfidfFit textos
        { m1 with vectorizer_fitted := some tf,
                  fornecedores_vetores := some (textos.map (ctx.tfidfTransform tf)),
                  fornecedores_dados := some fornecedores,
                  ultimo_treinamento := some now }

/-- Model of `RecomendadorFornecedores.recomendar` (recomendador.py 138-190).  An
untrained model logs an error and returns the empty list (lines 149-151); in
the TF-IDF branch, `vectorizer.transform` on a never-fitted vectorizer raises
`NotFittedError`, which escapes the method. -/
def recomendar {V S T : Type} (ctx : Libs V S T) (m : Modelo V S T)
    (licitacao : Licitacao) (top_n : Nat) : Except PyError (List Recomendacao) :=
  match m.fornecedores_vetores, m.fornecedores_dados with
  | some vetores, some dados =>
    let texto := preprocessar_texto (textoLicitacao licitacao)
    match m.sentence_transformer with
    | some st =>
        let sims := vetores.map (ctx.cosSim (ctx.stEncode st texto))
        .ok (recomendacoesOf dados sims top_n)
    | none =>
        match m.vectorizer_fitted with
        | none => .error .notFitted
        | some tf =>
            let sims := vetores.map (ctx.cosSim (ctx.tfidfTransform tf texto))
            .ok (recomendacoesOf dados sims top_n)
  | _, _ => .ok []

/-! Section: Persistence (`salvar_modelo` / `carregar_modelo`, recomendador.py 192-236)

`joblib.dump` writes a dict with the four keys
`fornecedores_vetores, fornecedores_dados, vectorizer, ultimo_treinamento`.
Storage is a map from paths to stored dicts; `none` at a path models a missing
file or one on which `joblib.load` raises (corrupt/incompatible pickle).  To
model *incompatible* dicts (produced by other writers), every key of a stored
dict is optional; `carregar_modelo` reads the first three with `dict[key]`
(raising `KeyError` when absent — after the earlier assignments have already
happened) and the last with `dict.get` (no exception). -/

/-- A dict as stored by `joblib.dump` in `salvar_modelo`.  Each field is
`none` when the corresponding key is absent from the dict. -/
structure ModeloDados (V T : Type) where
  fornecedores_vetores : Option (List V)
  fornecedores_dados : Option (List Fornecedor)
  vectorizer : Option (Option T)
  ultimo_treinamento : Option (Option Nat)

/-- The persistence boundary: what `joblib.load` yields at each path. -/
def Storage (V T : Type) := String → Option (ModeloDados V T)

/-- Model of `RecomendadorFornecedores.salvar_modelo` (recomendador.py 192-215): a
no-op when untrained, otherwise writes the four-key dict at `caminho`. -/
def salvar_modelo {V S T : Type} (m : Modelo V S T) (storage : Storage V T)
    (caminho : String) : Storage V T :=
  match m.fornecedores_vetores, m.fornecedores_dados with
  | some v, some d =>
      fun c => if c = caminho
               then some ⟨some v, some d, some m.vectorizer_fitted,
                          some m.ultimo_treinamento⟩
               else storage c
  | _, _ => storage

/-- Model of `RecomendadorFornecedores.carregar_modelo` (recomendador.py 217-236).
Every exception is caught and logged (`except Exception`), so the method
always returns normally; the `Bool` records whether the success branch (the
final log line) was reached.  The field assignments of lines 227-230 happen in
order, so a `KeyError` on a later key leaves the earlier assignments in
place. -/
def carregar_modelo {V S T : Type} (m : Modelo V S T) (storage : Storage V T)
    (caminho : String) : Modelo V S T × Bool :=
  match storage caminho with
  | none => (m, false)
  | some dic =>
    match dic.fornecedores_vetores with
    | none => (m, false)
    | some v =>
      match dic.fornecedores_dados with
      | none => ({ m with fornecedores_vetores := some v }, false)
      | some d =>
        match dic.vectorizer with
        | none => ({ m with fornecedores_vetores := some v,
                            fornecedores_dados := some d }, false)
        | some vz =>
            ({ m with fornecedores_vetores := some v,
                      fornecedores_dados := some d,
                      vectorizer_fitted := vz,
                      ultimo_treinamento := dic.ultimo_treinamento.getD none }, true)

/-! Section: Evaluation (`avaliar_recomendacoes`, recomendador.py 238-284) -/

/-- The per-query metric computation of the evaluation loop (recomendador.py
259-270): precision, recall and F1 from the recommended ids and the expected
ids.  `set(a).intersection(set(b))` is modelled as the deduplicated
recommended ids that occur among the expected ids. -/
def metricasQuery (recs : List Recomendacao) (ids_corretos : List String) :
    ℚ × ℚ × ℚ :=
  let ids_recomendados := recs.map (fun r => r.fornecedor.id)
  let relevantes := ids_recomendados.dedup.filter (fun i => i ∈ ids_corretos)
  let precisao : ℚ :=
    if ids_recomendados.isEmpty then 0
    else (relevantes.length : ℚ) / (ids_recomendados.length : ℚ)
  let recallV : ℚ :=
    if ids_corretos.isEmpty then 0
    else (relevantes.length : ℚ) / (ids_corretos.length : ℚ)
  let f1 : ℚ :=
    if 0 < precisao + recallV then 2 * (precisao * recallV) / (precisao + recallV)
    else 0
  (precisao, recallV, f1)

/-- The accumulation loop of `avaliar_recomendacoes` (recomendador.py
257-274): for each test bid, `recomendar(licitacao, top_n=10)` and the three
running totals.  An exception escaping `recomendar` escapes the loop. -/
def avaliarLoop {V S T : Type} (ctx : Libs V S T) (m : Modelo V S T)
    (acc : ℚ × ℚ × ℚ) :
    List (Licitacao × List String) → Except PyError (ℚ × ℚ × ℚ)
  | [] => .ok acc
  | (lic, corretos) :: rest =>
    match recomendar ctx m lic 10 with
    | .error e => .error e
    | .ok recs =>
      let pqf := metricasQuery recs corretos
      avaliarLoop ctx m (acc.1 + pqf.1, acc.2.1 + pqf.2.1, acc.2.2 + pqf.2.2) rest

/-- Model of `RecomendadorFornecedores.avaliar_recomendacoes` (recomendador.py
238-284).  On mismatched input lengths it logs an error and returns the empty
dict — modelled as `.ok none` (lines 249-251).  Otherwise it returns the dict
with the three averaged metrics (`.ok (some …)`); with zero test queries the
final averaging raises `ZeroDivisionError`. -/
def avaliar_recomendacoes {V S T : Type} (ctx : Libs V S T) (m : Modelo V S T)
    (licitacoes_teste : List Licitacao) (fornecedores_corretos : List (List String)) :
    Except PyError (Option (ℚ × ℚ × ℚ)) :=
  if licitacoes_teste.length ≠ fornecedores_corretos.length then .ok none
  else
    match avaliarLoop ctx m (0, 0, 0) (licitacoes_teste.zip fornecedores_corretos) with
    | .error e => .error e
    | .ok tot =>
      if licitacoes_teste.length = 0 then .error .zeroDivision
      else
        let n : ℚ := (licitacoes_teste.length : ℚ)
        .ok (some (tot.1 / n, tot.2.1 / n, tot.2.2 / n))

/-! Section: The proposal scorer (`calculate_supplier_scores`, tasks.py 209-231)

The per-proposal score computed in the worker loop: price, delivery and
rating factors with fixed weights `0.5 / 0.3 / 0.2`. -/

/-- The fields of a `Proposta` row read by the scoring loop. -/
structure Proposta where
  valor : ℚ
  prazo_entrega : ℚ
deriving DecidableEq, Repr

/-- The field of the `Fornecedor` ORM row read by the scoring loop. -/
structure FornecedorDB where
  avaliacao_media : ℚ
deriving DecidableEq, Repr

/-- The per-proposal suitability score `pontuacao` of
`calculate_supplier_scores` (tasks.py 209-228), as a function of the proposal,
the supplier row and `licitacao.valor_estimado`.  In `ℚ` division is total;
the Python guards (`> 0`) ensure the corresponding float divisions never
divide by zero. -/
def pontuacao_proposta (proposta : Proposta) (fornecedor : FornecedorDB)
    (valor_estimado : ℚ) : ℚ :=
  let preco_score :=
    if valor_estimado > 0 then 100 - (proposta.valor / valor_estimado * 100) else 50
  let preco_score := max 0 (min 100 preco_score)
  let prazo_score :=
    if proposta.prazo_entrega > 0 then 100 - (proposta.prazo_entrega / 30 * 100) else 50
  let prazo_score := max 0 (min 100 prazo_score)
  let avaliacao_score := fornecedor.avaliacao_media * 20
  preco_score * (1/2 : ℚ) + prazo_score * (3/10 : ℚ) + avaliacao_score * (1/5 : ℚ)

/-! Spec-side restatement of the scorer (C2), following the wording of the claim:
price and delivery factors as clamped expressions with neutral defaults, the
rating factor as `average_rating × 20`, composite
`0.5·price + 0.3·delivery + 0.2·rating`. -/

/-- Price factor of claim C2: `clamp(100 − value/estimate·100, 0, 100)` when the
estimate is positive, else the neutral `50`. -/
def specPrecoFactor (valor valor_estimado : ℚ) : ℚ :=
  if 0 < valor_estimado then max 0 (min 100 (100 - valor / valor_estimado * 100))
  else 50

/-- Delivery factor of claim C2: `clamp(100 − days/30·100, 0, 100)` when the
delivery time is positive, else the neutral `50`. -/
def specPrazoFactor (prazo_entrega : ℚ) : ℚ :=
  if 0 < prazo_entrega then max 0 (min 100 (100 - prazo_entrega / 30 * 100))
  else 50

/-- Rating factor of claim C2: `average_rating × 20`. -/
def specAvaliacaoFactor (avaliacao_media : ℚ) : ℚ :=
  avaliacao_media * 20

/-- Composite suitability score of claim C2. -/
def specPontuacao (proposta : Proposta) (fornecedor : FornecedorDB)
    (valor_estimado : ℚ) : ℚ :=
  (1/2 : ℚ) * specPrecoFactor proposta.valor valor_estimado
    + (3/10 : ℚ) * specPrazoFactor proposta.prazo_entrega
    + (1/5 : ℚ) * specAvaliacaoFactor fornecedor.avaliacao_media

/-! Section: concrete instances used to evaluate the model

Small closed instances of the library context, environments, suppliers, bids
and model states, used to run the embedded code on concrete inputs. -/

/-- An empty bid record (all text keys absent). -/
def licVazia : Licitacao := ⟨"", "", "", ""⟩

/-- A supplier with id "1" and no text fields. -/
def fornecedorA : Fornecedor := ⟨"1", "", "", "", "", ""⟩

/-- A supplier with id "2" and no text fields. -/
def fornecedorB : Fornecedor := ⟨"2", "", "", "", "", ""⟩

/-- A concrete library context over `ℚ` vectors: every embedding is the vector
`1` and cosine similarity is multiplication. -/
def libsQ : Libs ℚ Unit Unit :=
  ⟨fun _ _ => 1, fun _ => (), fun _ _ => 1, fun a b => a * b⟩

/-- A concrete library context over `ℚ` vectors whose cosine similarity is
constantly `1/2` (a value in `[0,1]`, as for TF-IDF vectors). -/
def libsHalf : Libs ℚ Unit Unit :=
  ⟨fun _ _ => 0, fun _ => (), fun _ _ => 0, fun _ _ => 1/2⟩

/-- An environment in which constructing the `SentenceTransformer` always
fails (the model cannot be downloaded). -/
def envFalha : Nat → Option Unit := fun _ => none

/-- An environment in which constructing the `SentenceTransformer` always
succeeds. -/
def envOk : Nat → Option Unit := fun _ => some ()

/-- A trained model with two tied candidates: corpus vectors `[0, 0]`,
suppliers A and B, frequency strategy. -/
def modeloEmpate : Modelo ℚ Unit Unit :=
  ⟨none, some (), some [0, 0], some [fornecedorA, fornecedorB], some 0, 1⟩

/-- The model obtained by training on suppliers A and B in an environment
where the semantic model is unavailable (TF-IDF path); both supplier texts
are empty, so their TF-IDF vectors coincide and every query ties them. -/
def modeloTreinadoAB : Modelo ℚ Unit Unit :=
  treinar libsQ envFalha freshModelo [fornecedorA, fornecedorB] 0

/-- The model obtained by training on supplier A with the semantic strategy
available. -/
def modeloSemantico : Modelo ℚ Unit Unit :=
  treinar libsQ envOk freshModelo [fornecedorA] 0

/-- The model obtained by training on supplier A with the frequency (TF-IDF)
strategy. -/
def modeloFrequencia : Modelo ℚ Unit Unit :=
  treinar libsQ envFalha freshModelo [fornecedorA] 0

/-- Empty storage: `joblib.load` fails at every path. -/
def storageVazio : Storage ℚ Unit := fun _ => none

/-- A bid whose only text is the title "abc". -/
def licAbc : Licitacao := ⟨"abc", "", "", ""⟩

/-- A library context over one-dimensional vectors (`ℚ`) with the *genuine*
cosine similarity of one-dimensional vectors: `cos(a, b) = sign(a·b)`, which is
`1`, `-1` or `0`.  The semantic encoder maps the text "abc" to the vector `1`
and every other text to the vector `-1`, so a query dissimilar from a
candidate has cosine similarity `-1` — dense sentence embeddings admit
negative cosine similarity. -/
def libsCos : Libs ℚ Unit Unit :=
  ⟨fun _ t => if t = "abc" then 1 else -1, fun _ => (), fun _ _ => 0,
    fun a b => if 0 < a * b then 1 else if a * b < 0 then -1 else 0⟩

/-- The model obtained by training on supplier A (whose text is empty, encoded
to the vector `-1`) with the semantic strategy available. -/
def modeloNegativo : Modelo ℚ Unit Unit :=
  treinar libsCos envOk freshModelo [fornecedorA] 0

/-- Storage holding, at path "q", an incompatible dict that has the key
`fornecedores_vetores` (value `[2]`) but none of the other keys. -/
def storageIncompleto : Storage ℚ Unit :=
  fun c => if c = "q" then some ⟨some [2], none, none, none⟩ else none

/-! Section: helper instances and lemmas -/

instance {e a : Type} [DecidableEq e] [DecidableEq a] : DecidableEq (Except e a) :=
  fun x y =>
    match x, y with
    | .ok u, .ok v =>
      if h : u = v then isTrue (by rw [h])
      else isFalse (fun hh => h (by injection hh))
    | .error u, .error v =>
      if h : u = v then isTrue (by rw [h])
      else isFalse (fun hh => h (by injection hh))
    | .ok _, .error _ => isFalse (fun hh => Except.noConfusion hh)
    | .error _, .ok _ => isFalse (fun hh => Except.noConfusion hh)

instance (sims : List ℚ) : IsTotal Nat (argRel sims) :=
  ⟨fun i j => by
    rcases lt_trichotomy (sims.getD i 0) (sims.getD j 0) with h | h | h
    · exact Or.inl (Or.inl h)
    · rcases Nat.le_total i j with hij | hij
      · exact Or.inl (Or.inr ⟨h, hij⟩)
      · exact Or.inr (Or.inr ⟨h.symm, hij⟩)
    · exact Or.inr (Or.inl h)⟩

instance (sims : List ℚ) : IsTrans Nat (argRel sims) :=
  ⟨fun a b c hab hbc => by
    rcases hab with h1 | ⟨e1, l1⟩ <;> rcases hbc with h2 | ⟨e2, l2⟩
    · exact Or.inl (h1.trans h2)
    · exact Or.inl (lt_of_lt_of_eq h1 e2)
    · exact Or.inl (lt_of_eq_of_lt e1 h2)
    · exact Or.inr ⟨e1.trans e2, l1.trans l2⟩⟩

theorem argsortAsc_perm (sims : List ℚ) :
    List.Perm (argsortAsc sims) (List.range sims.length) :=
  List.perm_insertionSort _ _

theorem argsortAsc_sorted (sims : List ℚ) :
    (argsortAsc sims).Sorted (argRel sims) :=
  List.sorted_insertionSort _ _

theorem argsortAsc_length (sims : List ℚ) :
    (argsortAsc sims).length = sims.length :=
  (argsortAsc_perm sims).length_eq.trans (List.length_range _)

theorem argsortAsc_nodup (sims : List ℚ) : (argsortAsc sims).Nodup :=
  ((argsortAsc_perm sims).nodup_iff).mpr (List.nodup_range _)

theorem lastSlice_sublist (k : Nat) (l : List α) : List.Sublist (lastSlice k l) l := by
  unfold lastSlice
  split
  · exact List.Sublist.refl l
  · exact List.drop_sublist _ _

theorem lastSlice_length (k : Nat) (l : List α) :
    (lastSlice k l).length = if k = 0 then l.length else min k l.length := by
  unfold lastSlice
  split
  · rfl
  · rw [List.length_drop]
    omega

theorem indicesTop_pairwise (sims : List ℚ) (k : Nat) :
    (indicesTop sims k).Pairwise (fun a b => argRel sims b a) := by
  unfold indicesTop
  rw [List.pairwise_reverse]
  exact (argsortAsc_sorted sims).sublist (lastSlice_sublist _ _)

theorem indicesTop_nodup (sims : List ℚ) (k : Nat) : (indicesTop sims k).Nodup := by
  unfold indicesTop
  rw [List.nodup_reverse]
  exact (argsortAsc_nodup sims).sublist (lastSlice_sublist _ _)

theorem indicesTop_mem (sims : List ℚ) (k : Nat) :
    ∀ i ∈ indicesTop sims k, i < sims.length := by
  intro i hi
  have h1 : i ∈ argsortAsc sims :=
    (lastSlice_sublist _ _).subset (List.mem_reverse.mp hi)
  exact List.mem_range.mp ((argsortAsc_perm sims).subset h1)

theorem indicesTop_length (sims : List ℚ) (k : Nat) :
    (indicesTop sims k).length = if k = 0 then sims.length else min k sims.length := by
  unfold indicesTop
  rw [List.length_reverse, lastSlice_length, argsortAsc_length]

theorem indicesTop_perm_zero (sims : List ℚ) :
    List.Perm (indicesTop sims 0) (List.range sims.length) := by
  unfold indicesTop lastSlice
  rw [if_pos rfl]
  exact (List.reverse_perm _).trans (argsortAsc_perm sims)

theorem buildRecs_length (dados : List Fornecedor) (sims : List ℚ) (l : List Nat)
    (i : Nat) (h : ∀ x ∈ l, x < dados.length) :
    (buildRecs dados sims i l).length = l.length := by
  induction l generalizing i with
  | nil => rfl
  | cons idx rest ih =>
    rw [buildRecs, if_pos (h idx (List.mem_cons_self _ _))]
    simp only [List.length_cons]
    rw [ih (i + 1) (fun x hx => h x (List.mem_cons_of_mem _ hx))]

theorem buildRecs_rankings (dados : List Fornecedor) (sims : List ℚ) (l : List Nat)
    (i : Nat) (h : ∀ x ∈ l, x < dados.length) :
    (buildRecs dados sims i l).map (fun r => r.ranking) =
      List.range' (i + 1) l.length := by
  induction l generalizing i with
  | nil => rfl
  | cons idx rest ih =>
    rw [buildRecs, if_pos (h idx (List.mem_cons_self _ _))]
    simp only [List.length_cons, List.map_cons, List.range'_succ]
    rw [ih (i + 1) (fun x hx => h x (List.mem_cons_of_mem _ hx))]

theorem buildRecs_pontuacoes (dados : List Fornecedor) (sims : List ℚ) (l : List Nat)
    (i : Nat) (h : ∀ x ∈ l, x < dados.length) :
    (buildRecs dados sims i l).map (fun r => r.pontuacao) =
      l.map (fun idx => sims.getD idx 0 * 100) := by
  induction l generalizing i with
  | nil => rfl
  | cons idx rest ih =>
    rw [buildRecs, if_pos (h idx (List.mem_cons_self _ _))]
    simp only [List.map_cons]
    rw [ih (i + 1) (fun x hx => h x (List.mem_cons_of_mem _ hx))]

theorem buildRecs_fornecedores (dados : List Fornecedor) (sims : List ℚ) (l : List Nat)
    (i : Nat) (h : ∀ x ∈ l, x < dados.length) :
    (buildRecs dados sims i l).map (fun r => r.fornecedor) =
      l.map (fun idx => dados.getD idx fornecedorDefault) := by
  induction l generalizing i with
  | nil => rfl
  | cons idx rest ih =>
    rw [buildRecs, if_pos (h idx (List.mem_cons_self _ _))]
    simp only [List.map_cons]
    rw [ih (i + 1) (fun x hx => h x (List.mem_cons_of_mem _ hx))]

theorem recomendacoesOf_length (dados : List Fornecedor) (sims : List ℚ) (k : Nat)
    (hlen : sims.length = dados.length) :
    (recomendacoesOf dados sims k).length =
      if k = 0 then dados.length else min k dados.length := by
  unfold recomendacoesOf
  rw [buildRecs_length dados sims _ 0 (fun x hx => hlen ▸ indicesTop_mem sims k x hx)]
  rw [indicesTop_length, hlen]

theorem recomendacoesOf_rankings (dados : List Fornecedor) (sims : List ℚ) (k : Nat)
    (hlen : sims.length = dados.length) :
    (recomendacoesOf dados sims k).map (fun r => r.ranking) =
      List.range' 1 (if k = 0 then dados.length else min k dados.length) := by
  unfold recomendacoesOf
  rw [buildRecs_rankings dados sims _ 0 (fun x hx => hlen ▸ indicesTop_mem sims k x hx)]
  rw [indicesTop_length, hlen]

theorem recomendacoesOf_pontuacoes (dados : List Fornecedor) (sims : List ℚ) (k : Nat)
    (hlen : sims.length = dados.length) :
    (recomendacoesOf dados sims k).map (fun r => r.pontuacao) =
      (indicesTop sims k).map (fun idx => sims.getD idx 0 * 100) :=
  buildRecs_pontuacoes dados sims _ 0 (fun x hx => hlen ▸ indicesTop_mem sims k x hx)

theorem recomendacoesOf_fornecedores (dados : List Fornecedor) (sims : List ℚ) (k : Nat)
    (hlen : sims.length = dados.length) :
    (recomendacoesOf dados sims k).map (fun r => r.fornecedor) =
      (indicesTop sims k).map (fun idx => dados.getD idx fornecedorDefault) :=
  buildRecs_fornecedores dados sims _ 0 (fun x hx => hlen ▸ indicesTop_mem sims k x hx)

theorem recomendacoesOf_sorted (dados : List Fornecedor) (sims : List ℚ) (k : Nat)
    (hlen : sims.length = dados.length) :
    ((recomendacoesOf dados sims k).map (fun r => r.pontuacao)).Sorted (· ≥ ·) := by
  rw [recomendacoesOf_pontuacoes dados sims k hlen]
  refine (indicesTop_pairwise sims k).map _ ?_
  intro a b hab
  have hkey : sims.getD b 0 ≤ sims.getD a 0 := by
    rcases hab with h | ⟨h, _⟩
    · exact le_of_lt h
    · exact le_of_eq h
  exact mul_le_mul_of_nonneg_right hkey (by norm_num)

theorem recomendacoesOf_bounds (dados : List Fornecedor) (sims : List ℚ) (k : Nat)
    (hlen : sims.length = dados.length)
    (hb : ∀ s ∈ sims, 0 ≤ s ∧ s ≤ 1) :
    ∀ r ∈ recomendacoesOf dados sims k, 0 ≤ r.pontuacao ∧ r.pontuacao ≤ 100 := by
  intro r hr
  have hmem : r.pontuacao ∈ (recomendacoesOf dados sims k).map (fun r => r.pontuacao) :=
    List.mem_map.mpr ⟨r, hr, rfl⟩
  rw [recomendacoesOf_pontuacoes dados sims k hlen] at hmem
  obtain ⟨idx, hidx, hp⟩ := List.mem_map.mp hmem
  have hlt : idx < sims.length := indicesTop_mem sims k idx hidx
  have hs : sims.getD idx 0 ∈ sims := by
    rw [List.getD_eq_getElem?_getD, List.getElem?_eq_getElem hlt]
    exact List.getElem_mem hlt
  obtain ⟨h0, h1⟩ := hb _ hs
  constructor
  · rw [← hp]; positivity
  · rw [← hp]
    calc sims.getD idx 0 * 100 ≤ 1 * 100 :=
          mul_le_mul_of_nonneg_right h1 (by norm_num)
    _ = 100 := by norm_num

theorem map_getD_range (l : List α) (d : α) :
    (List.range l.length).map (fun i => l.getD i d) = l := by
  apply List.ext_getElem
  · simp
  · intro i h1 h2
    simp only [List.getElem_map, List.getElem_range]
    rw [List.getD_eq_getElem?_getD, List.getElem?_eq_getElem h2]
    rfl

theorem recomendar_ok_eq {V S T : Type} (ctx : Libs V S T) (m : Modelo V S T)
    (lic : Licitacao) (k : Nat) (vetores : List V) (dados : List Fornecedor)
    (recs : List Recomendacao)
    (hv : m.fornecedores_vetores = some vetores)
    (hd : m.fornecedores_dados = some dados)
    (hok : recomendar ctx m lic k = .ok recs) :
    ∃ qv : V, recs = recomendacoesOf dados (vetores.map (ctx.cosSim qv)) k := by
  unfold recomendar at hok
  rw [hv, hd] at hok
  cases hst : m.sentence_transformer with
  | some st =>
    rw [hst] at hok
    refine ⟨ctx.stEncode st (preprocessar_texto (textoLicitacao lic)), ?_⟩
    injection hok with h
    exact h.symm
  | none =>
    rw [hst] at hok
    cases hvf : m.vectorizer_fitted with
    | none => rw [hvf] at hok; exact absurd hok (by simp)
    | some tf =>
      rw [hvf] at hok
      refine ⟨ctx.tfidfTransform tf (preprocessar_texto (textoLicitacao lic)), ?_⟩
      injection hok with h
      exact h.symm

/-! Section: evaluation lemmas for the concrete instances

Concrete runs of the pipeline, proved by unfolding; rational arithmetic is
discharged with `norm_num`. -/

theorem argsortAsc_single (s : ℚ) : argsortAsc [s] = [0] := by
  unfold argsortAsc
  rw [show List.range (List.length [s]) = [0] from rfl]
  rfl

theorem argsortAsc_pair (s : ℚ) : argsortAsc [s, s] = [0, 1] := by
  unfold argsortAsc
  rw [show List.range (List.length [s, s]) = [0, 1] from rfl]
  show List.orderedInsert _ 0 (List.orderedInsert _ 1 []) = [0, 1]
  rw [List.orderedInsert, List.orderedInsert]
  rw [if_pos (show argRel [s, s] 0 1 from Or.inr ⟨rfl, Nat.zero_le 1⟩)]

theorem indicesTop_pair_two (s : ℚ) : indicesTop [s, s] 2 = [1, 0] := by
  unfold indicesTop lastSlice
  rw [argsortAsc_pair]
  decide

theorem indicesTop_pair_one (s : ℚ) : indicesTop [s, s] 1 = [1] := by
  unfold indicesTop lastSlice
  rw [argsortAsc_pair]
  decide

theorem indicesTop_pair_zero (s : ℚ) : indicesTop [s, s] 0 = [1, 0] := by
  unfold indicesTop lastSlice
  rw [argsortAsc_pair]
  decide

theorem indicesTop_single (s : ℚ) (k : Nat) : indicesTop [s] k = [0] := by
  unfold indicesTop lastSlice
  rw [argsortAsc_single]
  split
  · rfl
  · rename_i hk
    rw [show List.length [0] - k = 0 from by simp; omega]
    rfl

theorem recomendar_empate_one :
    recomendar libsHalf modeloEmpate licVazia 1 = .ok [⟨fornecedorB, 50, 1⟩] := by
  rw [show recomendar libsHalf modeloEmpate licVazia 1 =
      .ok (recomendacoesOf [fornecedorA, fornecedorB] [1/2, 1/2] 1) from rfl]
  unfold recomendacoesOf
  rw [indicesTop_pair_one]
  simp [buildRecs, List.getD]
  norm_num

theorem recomendar_empate_zero :
    recomendar libsHalf modeloEmpate licVazia 0 =
      .ok [⟨fornecedorB, 50, 1⟩, ⟨fornecedorA, 50, 2⟩] := by
  rw [show recomendar libsHalf modeloEmpate licVazia 0 =
      .ok (recomendacoesOf [fornecedorA, fornecedorB] [1/2, 1/2] 0) from rfl]
  unfold recomendacoesOf
  rw [indicesTop_pair_zero]
  simp [buildRecs, List.getD]
  norm_num

theorem recomendar_empate_two :
    recomendar libsHalf modeloEmpate licVazia 2 =
      .ok [⟨fornecedorB, 50, 1⟩, ⟨fornecedorA, 50, 2⟩] := by
  rw [show recomendar libsHalf modeloEmpate licVazia 2 =
      .ok (recomendacoesOf [fornecedorA, fornecedorB] [1/2, 1/2] 2) from rfl]
  unfold recomendacoesOf
  rw [indicesTop_pair_two]
  simp [buildRecs, List.getD]
  norm_num

theorem modeloTreinadoAB_eq :
    modeloTreinadoAB = ⟨none, some (), some [1, 1],
      some [fornecedorA, fornecedorB], some 0, 1⟩ := rfl

theorem recomendar_treinadoAB_two :
    recomendar libsQ modeloTreinadoAB licVazia 2 =
      .ok [⟨fornecedorB, 100, 1⟩, ⟨fornecedorA, 100, 2⟩] := by
  rw [show recomendar libsQ modeloTreinadoAB licVazia 2 =
      .ok (recomendacoesOf [fornecedorA, fornecedorB] [1 * 1, 1 * 1] 2) from rfl]
  rw [show [1 * 1, 1 * 1] = [(1 : ℚ), 1] from by norm_num]
  unfold recomendacoesOf
  rw [indicesTop_pair_two]
  simp [buildRecs, List.getD]

theorem recomendar_semantico_five :
    recomendar libsQ modeloSemantico licVazia 5 = .ok [⟨fornecedorA, 100, 1⟩] := by
  rw [show recomendar libsQ modeloSemantico licVazia 5 =
      .ok (recomendacoesOf [fornecedorA] [1 * 1] 5) from rfl]
  rw [show [1 * 1] = [(1 : ℚ)] from by norm_num]
  unfold recomendacoesOf
  rw [indicesTop_single]
  simp [buildRecs, List.getD]

/-! Section: the claims -/

/-- C1, counterexample.  The claim says an untrained model's `recommend` fails
with a NotTrained error and never silently returns an empty result list.  On a
fresh (untrained) instance the code logs an error and returns the empty list
normally (recomendador.py 149-151): the call yields `.ok []`, not an error. -/
theorem c1_counterexample :
    recomendar libsQ (freshModelo : Modelo ℚ Unit Unit) licVazia 5 = .ok [] := rfl

/-- C1, amended.  In the Untrained state (no corpus vectors or no supplier
records), `recomendar` returns the empty list normally after logging; no error
condition is surfaced to the caller. -/
theorem c1_amended {V S T : Type} (ctx : Libs V S T) (m : Modelo V S T)
    (lic : Licitacao) (n : Nat)
    (h : m.fornecedores_vetores = none ∨ m.fornecedores_dados = none) :
    recomendar ctx m lic n = .ok [] := by
  unfold recomendar
  rcases h with h | h
  · rw [h]
  · rw [h]
    cases m.fornecedores_vetores <;> rfl

/-- C1, witness for the amended theorem at a fresh instance. -/
theorem c1_witness :
    ((freshModelo : Modelo ℚ Unit Unit).fornecedores_vetores = none ∨
      (freshModelo : Modelo ℚ Unit Unit).fornecedores_dados = none) ∧
    recomendar libsQ (freshModelo : Modelo ℚ Unit Unit) licVazia 3 = .ok [] :=
  ⟨Or.inl rfl, c1_amended libsQ freshModelo licVazia 3 (Or.inl rfl)⟩

/-- C2.  The per-proposal suitability score of `calculate_supplier_scores`
equals `0.5·price + 0.3·delivery + 0.2·rating` with the claimed clamped
factors and neutral defaults; equal value and estimate give price factor 0,
zero value (positive estimate) gives 100, zero delivery days and non-positive
estimated value give the neutral 50.  Divisions only occur under the
positivity guards, so the float code never divides by zero. -/
theorem c2_pontuacao (p : Proposta) (f : FornecedorDB) (ve : ℚ) :
    pontuacao_proposta p f ve = specPontuacao p f ve ∧
    (0 < ve → specPrecoFactor ve ve = 0) ∧
    (0 < ve → specPrecoFactor 0 ve = 100) ∧
    specPrazoFactor 0 = 50 ∧
    (ve ≤ 0 → specPrecoFactor p.valor ve = 50) := by
  have h50 : max 0 (min 100 (50 : ℚ)) = 50 := by norm_num
  refine ⟨?_, ?_, ?_, ?_, ?_⟩
  · unfold pontuacao_proposta specPontuacao specPrecoFactor specPrazoFactor
      specAvaliacaoFactor
    split_ifs <;> simp only [h50] <;> ring
  · intro h
    unfold specPrecoFactor
    rw [if_pos h, div_self (ne_of_gt h)]
    norm_num
  · intro h
    unfold specPrecoFactor
    rw [if_pos h, zero_div]
    norm_num
  · unfold specPrazoFactor
    norm_num
  · intro h
    unfold specPrecoFactor
    rw [if_neg (not_lt.mpr h)]

/-- C2, witness: the scorer evaluated at concrete boundary inputs. -/
theorem c2_witness :
    (0 : ℚ) < 100 ∧ (-1 : ℚ) ≤ 0 ∧
    pontuacao_proposta ⟨100, 10⟩ ⟨4⟩ 100 = specPontuacao ⟨100, 10⟩ ⟨4⟩ 100 ∧
    specPrecoFactor 100 100 = 0 ∧
    specPrecoFactor 0 100 = 100 ∧
    specPrazoFactor 0 = 50 ∧
    specPrecoFactor 7 (-1) = 50 :=
  ⟨by norm_num, by norm_num,
    (c2_pontuacao ⟨100, 10⟩ ⟨4⟩ 100).1,
    (c2_pontuacao ⟨100, 10⟩ ⟨4⟩ 100).2.1 (by norm_num),
    (c2_pontuacao ⟨100, 10⟩ ⟨4⟩ 100).2.2.1 (by norm_num),
    (c2_pontuacao ⟨100, 10⟩ ⟨4⟩ 100).2.2.2.1,
    (c2_pontuacao ⟨7, 1⟩ ⟨0⟩ (-1)).2.2.2.2 (by norm_num)⟩

/-- C6, counterexample.  The claim says a failed load surfaces a LoadFailure
and the entire pre-existing state is preserved — never partially updated.
Loading an incompatible dict that has `fornecedores_vetores` but lacks
`fornecedores_dados` assigns the vectors, then hits `KeyError`, which the
`except` block swallows: the state ends partially updated (new vectors, old
records) and no error reaches the caller. -/
theorem c6_counterexample :
    (carregar_modelo modeloFrequencia storageIncompleto ("q")).1.fornecedores_vetores
        = some [2] ∧
    (carregar_modelo modeloFrequencia storageIncompleto ("q")).1.fornecedores_dados
        = some [fornecedorA] ∧
    (carregar_modelo modeloFrequencia storageIncompleto ("q")).2 = false ∧
    modeloFrequencia.fornecedores_vetores = some [1] := by decide

/-- C6, amended.  When the storage location is absent or unreadable
(`joblib.load` raises), `carregar_modelo` catches the exception, logs it, and
returns with the in-memory state fully preserved; no error is surfaced.  (With
an incompatible dict, however, the state can be left partially updated.) -/
theorem c6_amended {V S T : Type} (m : Modelo V S T) (storage : Storage V T)
    (caminho : String) (h : storage caminho = none) :
    carregar_modelo m storage caminho = (m, false) := by
  unfold carregar_modelo
  rw [h]

/-- C6, witness for the amended theorem: loading from empty storage. -/
theorem c6_witness :
    storageVazio ("x") = none ∧
    carregar_modelo modeloFrequencia storageVazio ("x") = (modeloFrequencia, false) :=
  ⟨rfl, c6_amended modeloFrequencia storageVazio ("x") rfl⟩

/-- C7, counterexample.  The claim says `evaluate` with mismatched input
lengths fails with an InputMismatch error surfaced to the caller.  The code
logs an error and returns the empty dict normally (recomendador.py 249-251):
the call yields `.ok none` (empty dict), not an error. -/
theorem c7_counterexample :
    avaliar_recomendacoes libsQ (freshModelo : Modelo ℚ Unit Unit) [licVazia] []
      = .ok none := rfl

/-- C7, amended.  With input sequences of different lengths,
`avaliar_recomendacoes` immediately logs and returns the empty dict (before
any recommendation or similarity computation); no exception is raised. -/
theorem c7_amended {V S T : Type} (ctx : Libs V S T) (m : Modelo V S T)
    (licitacoes_teste : List Licitacao) (fornecedores_corretos : List (List String))
    (h : licitacoes_teste.length ≠ fornecedores_corretos.length) :
    avaliar_recomendacoes ctx m licitacoes_teste fornecedores_corretos = .ok none := by
  unfold avaliar_recomendacoes
  rw [if_pos h]

/-- C7, witness for the amended theorem. -/
theorem c7_witness :
    ([] : List Licitacao).length ≠ [([] : List String)].length ∧
    avaliar_recomendacoes libsQ (freshModelo : Modelo ℚ Unit Unit) [] [[]] = .ok none :=
  ⟨by decide, c7_amended libsQ freshModelo [] [[]] (by decide)⟩

/-- C8, counterexample.  The claim says the semantic strategy is attempted at
most once per process.  With an environment in which the construction always
fails, two consecutive `treinar` calls each attempt the construction: the
attempt counter reaches 2. -/
theorem c8_counterexample :
    (treinar libsQ envFalha
        (treinar libsQ envFalha (freshModelo : Modelo ℚ Unit Unit) [fornecedorA] 0)
        [fornecedorA] 1).st_init_attempts = 2 := by decide

/-- C8, amended.  `treinar` re-attempts the `SentenceTransformer`
construction on every call with a nonempty supplier list while the transformer
is still `None` (including after earlier failures); once it is loaded it is
kept and never re-attempted.  (`recomendar` never calls the initializer: it is
a pure read of the model state.) -/
theorem c8_amended {V S T : Type} (ctx : Libs V S T) (env : Nat → Option S)
    (m : Modelo V S T) (fs : List Fornecedor) (now : Nat) :
    (m.sentence_transformer = none → fs ≠ [] →
      (treinar ctx env m fs now).st_init_attempts = m.st_init_attempts + 1) ∧
    (∀ s, m.sentence_transformer = some s →
      (treinar ctx env m fs now).sentence_transformer = some s ∧
      (treinar ctx env m fs now).st_init_attempts = m.st_init_attempts) := by
  constructor
  · intro hst hne
    unfold treinar
    rw [if_neg (show ¬ (fs.isEmpty = true) by
      simp only [List.isEmpty_iff]
      exact hne)]
    simp only [hst, Option.isNone_none, if_true, inicializar_sentence_transformer]
    cases henv : env m.st_init_attempts <;> simp [henv]
  · intro s hs
    unfold treinar
    by_cases hfs : fs.isEmpty
    · rw [if_pos hfs]
      exact ⟨hs, rfl⟩
    · rw [if_neg hfs]
      simp [hs]

/-- C8, witness for the amended theorem. -/
theorem c8_witness :
    ((freshModelo : Modelo ℚ Unit Unit).sentence_transformer = none ∧
      [fornecedorA] ≠ [] ∧
      (treinar libsQ envFalha freshModelo [fornecedorA] 0).st_init_attempts =
        (freshModelo : Modelo ℚ Unit Unit).st_init_attempts + 1) ∧
    (modeloSemantico.sentence_transformer = some () ∧
      (treinar libsQ envFalha modeloSemantico [fornecedorA] 1).sentence_transformer
        = some () ∧
      (treinar libsQ envFalha modeloSemantico [fornecedorA] 1).st_init_attempts =
        modeloSemantico.st_init_attempts) :=
  ⟨⟨rfl, by decide,
      (c8_amended libsQ envFalha freshModelo [fornecedorA] 0).1 rfl (by decide)⟩,
    ⟨rfl,
      ((c8_amended libsQ envFalha modeloSemantico [fornecedorA] 1).2 () rfl).1,
      ((c8_amended libsQ envFalha modeloSemantico [fornecedorA] 1).2 () rfl).2⟩⟩

/-- C9, code bug.  The claim (and the comment above the regex in the source,
and the unit test asserting `isalpha or isspace`) say the normalized text
contains only lowercase letters and single spaces.  The regex class used,
`[^\w\s]`, also keeps the underscore (`\w` matches it), so the underscore
survives preprocessing: `preprocessar_texto` maps the string of one
underscore to itself, and the underscore is neither a letter nor a space. -/
theorem c9_underscore_kept :
    preprocessar_texto ("_") = "_" ∧
    ('_'.isAlpha = false ∧ '_' ≠ ' ') := by decide

/-- C3, counterexample.  The claim says every score of a trained model lies in
`[0,100]`.  That holds for the frequency strategy (TF-IDF vectors are
componentwise non-negative, so cosine similarity is in `[0,1]`), but dense
semantic embeddings admit negative cosine similarity.  Concretely: over
one-dimensional vectors with the genuine cosine `sign(a·b)`, a semantic model
whose candidate encodes to `-1` answers a query encoding to `1` with
similarity `-1`, i.e. score `-100`, which is outside `[0,100]`. -/
theorem c3_counterexample :
    recomendar libsCos modeloNegativo licAbc 1 = .ok [⟨fornecedorA, -100, 1⟩] ∧
    ¬ ((0 : ℚ) ≤ -100) := by
  constructor
  · rw [show recomendar libsCos modeloNegativo licAbc 1 =
        .ok (recomendacoesOf [fornecedorA]
          (List.map (libsCos.cosSim
            (libsCos.stEncode () (preprocessar_texto (textoLicitacao licAbc))))
            [-1]) 1) from rfl]
    rw [show libsCos.stEncode () (preprocessar_texto (textoLicitacao licAbc)) = 1
        from rfl]
    rw [show List.map (libsCos.cosSim 1) [(-1 : ℚ)] = [-1] from by
      norm_num [libsCos]]
    unfold recomendacoesOf
    rw [indicesTop_single]
    simp [buildRecs, List.getD]
  · norm_num

/-- C3, amended.  On a trained model (corpus vectors and records aligned), when
`recomendar` returns a result list for `top_n = k ≥ 1`, that list has exactly
`min k N` entries, rank fields `1, 2, …` strictly increasing, and scores
(similarity × 100) non-increasing by rank; and whenever the cosine
similarities produced by the library lie in `[0,1]` — guaranteed for the
frequency strategy, whose TF-IDF vectors are componentwise non-negative, but
not for semantic embeddings, whose cosine ranges over `[-1,1]` — every score
lies in `[0,100]`. -/
theorem c3_recomendar_top_n {V S T : Type} (ctx : Libs V S T) (m : Modelo V S T)
    (lic : Licitacao) (k : Nat) (vetores : List V) (dados : List Fornecedor)
    (recs : List Recomendacao)
    (hv : m.fornecedores_vetores = some vetores)
    (hd : m.fornecedores_dados = some dados)
    (hlen : vetores.length = dados.length)
    (hk : 1 ≤ k)
    (hok : recomendar ctx m lic k = .ok recs) :
    recs.length = min k dados.length ∧
    recs.map (fun r => r.ranking) = List.range' 1 (min k dados.length) ∧
    ((recs.map (fun r => r.pontuacao)).Sorted (· ≥ ·)) ∧
    ((∀ q v, 0 ≤ ctx.cosSim q v ∧ ctx.cosSim q v ≤ 1) →
      ∀ r ∈ recs, 0 ≤ r.pontuacao ∧ r.pontuacao ≤ 100) := by
  obtain ⟨qv, rfl⟩ := recomendar_ok_eq ctx m lic k vetores dados recs hv hd hok
  have hslen : (vetores.map (ctx.cosSim qv)).length = dados.length := by
    rw [List.length_map]
    exact hlen
  have hk0 : ¬ (k = 0) := by omega
  refine ⟨?_, ?_, recomendacoesOf_sorted _ _ _ hslen, ?_⟩
  · rw [recomendacoesOf_length _ _ _ hslen, if_neg hk0]
  · rw [recomendacoesOf_rankings _ _ _ hslen, if_neg hk0]
  · intro hsim
    refine recomendacoesOf_bounds _ _ _ hslen ?_
    intro s hs
    obtain ⟨v, _, rfl⟩ := List.mem_map.mp hs
    exact hsim qv v

/-- C3, witness: the theorem applied to a concrete trained two-candidate
model, with `top_n = 1`. -/
theorem c3_witness :
    modeloEmpate.fornecedores_vetores = some [0, 0] ∧
    modeloEmpate.fornecedores_dados = some [fornecedorA, fornecedorB] ∧
    ([(0 : ℚ), 0]).length = [fornecedorA, fornecedorB].length ∧
    (∀ q v : ℚ, 0 ≤ libsHalf.cosSim q v ∧ libsHalf.cosSim q v ≤ 1) ∧
    recomendar libsHalf modeloEmpate licVazia 1 = .ok [⟨fornecedorB, 50, 1⟩] ∧
    ([(⟨fornecedorB, 50, 1⟩ : Recomendacao)].length
        = min 1 [fornecedorA, fornecedorB].length ∧
      [(⟨fornecedorB, 50, 1⟩ : Recomendacao)].map (fun r => r.ranking)
        = List.range' 1 (min 1 [fornecedorA, fornecedorB].length) ∧
      (([(⟨fornecedorB, 50, 1⟩ : Recomendacao)].map (fun r => r.pontuacao)).Sorted (· ≥ ·)) ∧
      ∀ r ∈ [(⟨fornecedorB, 50, 1⟩ : Recomendacao)],
        0 ≤ r.pontuacao ∧ r.pontuacao ≤ 100) :=
  ⟨rfl, rfl, rfl, fun _ _ => by norm_num [libsHalf], recomendar_empate_one,
    (c3_recomendar_top_n libsHalf modeloEmpate licVazia 1 [0, 0]
      [fornecedorA, fornecedorB] [⟨fornecedorB, 50, 1⟩] rfl rfl rfl (by decide)
      recomendar_empate_one).1,
    (c3_recomendar_top_n libsHalf modeloEmpate licVazia 1 [0, 0]
      [fornecedorA, fornecedorB] [⟨fornecedorB, 50, 1⟩] rfl rfl rfl (by decide)
      recomendar_empate_one).2.1,
    (c3_recomendar_top_n libsHalf modeloEmpate licVazia 1 [0, 0]
      [fornecedorA, fornecedorB] [⟨fornecedorB, 50, 1⟩] rfl rfl rfl (by decide)
      recomendar_empate_one).2.2.1,
    (c3_recomendar_top_n libsHalf modeloEmpate licVazia 1 [0, 0]
      [fornecedorA, fornecedorB] [⟨fornecedorB, 50, 1⟩] rfl rfl rfl (by decide)
      recomendar_empate_one).2.2.2 (fun _ _ => by norm_num [libsHalf])⟩

/-- C4, counterexample.  The claim says equal-similarity ties are broken by
original candidate input order (earlier candidate gets the better rank).  On a
model trained on suppliers A then B with identical (empty) texts — hence
identical vectors and tied similarities — the code ranks supplier B (the
later candidate) first: on a two-element array numpy's `argsort` is an
insertion sort, which puts the tied indices in ascending order, and the
`[::-1]` reversal then puts the later index first. -/
theorem c4_counterexample :
    recomendar libsQ modeloTreinadoAB licVazia 2 =
      .ok [⟨fornecedorB, 100, 1⟩, ⟨fornecedorA, 100, 2⟩] ∧
    fornecedorB ≠ fornecedorA :=
  ⟨recomendar_treinadoAB_two, by decide⟩

/-- C4, amended.  Ties are *not* broken by original candidate input order: for
a corpus of two candidates with identical embedding vectors (hence equal
similarity scores for every query), the later candidate receives rank 1 and
the earlier one rank 2, under every library context and query.  (On a
two-element array numpy's `argsort` is an insertion sort — stable, ascending
tie order — and the `[::-1]` reversal puts the later index first.  For larger
arrays numpy's default sort documents no tie order, so no input-order
tie-break holds in general either.) -/
theorem c4_tie_two_reversed {V S T : Type} (ctx : Libs V S T) (m : Modelo V S T)
    (lic : Licitacao) (fa fb : Fornecedor) (v : V) (recs : List Recomendacao)
    (hv : m.fornecedores_vetores = some [v, v])
    (hd : m.fornecedores_dados = some [fa, fb])
    (hok : recomendar ctx m lic 2 = .ok recs) :
    ∃ p : ℚ, recs = [⟨fb, p, 1⟩, ⟨fa, p, 2⟩] := by
  obtain ⟨qv, rfl⟩ := recomendar_ok_eq ctx m lic 2 [v, v] [fa, fb] recs hv hd hok
  refine ⟨ctx.cosSim qv v * 100, ?_⟩
  show recomendacoesOf [fa, fb] [ctx.cosSim qv v, ctx.cosSim qv v] 2 = _
  unfold recomendacoesOf
  rw [indicesTop_pair_two]
  simp [buildRecs, List.getD]

/-- C4, witness for the amended theorem: a concrete two-candidate tie. -/
theorem c4_witness :
    modeloEmpate.fornecedores_vetores = some [0, 0] ∧
    modeloEmpate.fornecedores_dados = some [fornecedorA, fornecedorB] ∧
    recomendar libsHalf modeloEmpate licVazia 2 =
      .ok [⟨fornecedorB, 50, 1⟩, ⟨fornecedorA, 50, 2⟩] ∧
    ∃ p : ℚ, [(⟨fornecedorB, 50, 1⟩ : Recomendacao), ⟨fornecedorA, 50, 2⟩]
      = [⟨fornecedorB, p, 1⟩, ⟨fornecedorA, p, 2⟩] :=
  ⟨rfl, rfl, recomendar_empate_two,
    c4_tie_two_reversed libsHalf modeloEmpate licVazia fornecedorA fornecedorB 0
      [⟨fornecedorB, 50, 1⟩, ⟨fornecedorA, 50, 2⟩] rfl rfl recomendar_empate_two⟩

/-- C5, counterexample.  The claim says save→load into a fresh instance
reproduces identical `recommend` output regardless of the embedding strategy.
The saved dict does not contain the sentence transformer, and `carregar_modelo`
never re-initializes it, so a fresh instance that loads a semantically trained
model falls into the TF-IDF branch with its never-fitted vectorizer:
`recomendar` raises `NotFittedError` while the original instance answers
normally. -/
theorem c5_counterexample :
    recomendar libsQ
        (carregar_modelo (freshModelo : Modelo ℚ Unit Unit)
          (salvar_modelo modeloSemantico storageVazio ("p")) ("p")).1
        licVazia 5 = .error .notFitted ∧
    recomendar libsQ modeloSemantico licVazia 5 = .ok [⟨fornecedorA, 100, 1⟩] :=
  ⟨by decide, recomendar_semantico_five⟩

/-- C5, amended.  For a model trained with the *frequency* strategy (no
sentence transformer), save followed by load into a fresh instance restores
all corpus fields exactly (vectors, supplier records, fitted vectorizer state,
training timestamp) and the fresh instance answers every `recomendar` query
identically to the original. -/
theorem c5_roundtrip_frequencia {V S T : Type} (ctx : Libs V S T)
    (m : Modelo V S T) (storage : Storage V T) (caminho : String)
    (vetores : List V) (dados : List Fornecedor)
    (hst : m.sentence_transformer = none)
    (hv : m.fornecedores_vetores = some vetores)
    (hd : m.fornecedores_dados = some dados) :
    (carregar_modelo (freshModelo : Modelo V S T) (salvar_modelo m storage caminho) caminho).2 = true ∧
    (carregar_modelo (freshModelo : Modelo V S T) (salvar_modelo m storage caminho) caminho).1.fornecedores_vetores = some vetores ∧
    (carregar_modelo (freshModelo : Modelo V S T) (salvar_modelo m storage caminho) caminho).1.fornecedores_dados = some dados ∧
    (carregar_modelo (freshModelo : Modelo V S T) (salvar_modelo m storage caminho) caminho).1.vectorizer_fitted = m.vectorizer_fitted ∧
    (carregar_modelo (freshModelo : Modelo V S T) (salvar_modelo m storage caminho) caminho).1.ultimo_treinamento = m.ultimo_treinamento ∧
    ∀ (lic : Licitacao) (k : Nat),
      recomendar ctx (carregar_modelo (freshModelo : Modelo V S T) (salvar_modelo m storage caminho) caminho).1 lic k
        = recomendar ctx m lic k := by
  have hsal : salvar_modelo m storage caminho caminho =
      some ⟨some vetores, some dados, some m.vectorizer_fitted,
            some m.ultimo_treinamento⟩ := by
    unfold salvar_modelo
    rw [hv, hd]
    simp
  have hm2 : carregar_modelo (freshModelo : Modelo V S T) (salvar_modelo m storage caminho) caminho =
      (⟨none, m.vectorizer_fitted, some vetores, some dados,
        m.ultimo_treinamento, 0⟩, true) := by
    unfold carregar_modelo
    rw [hsal]
    rfl
  rw [hm2]
  refine ⟨rfl, rfl, rfl, rfl, rfl, ?_⟩
  intro lic k
  cases hvf : m.vectorizer_fitted <;>
    simp [recomendar, hv, hd, hst, hvf]

/-- C5, witness for the amended theorem: round-trip of a concrete
frequency-trained model. -/
theorem c5_witness :
    modeloFrequencia.sentence_transformer = none ∧
    modeloFrequencia.fornecedores_vetores = some [1] ∧
    modeloFrequencia.fornecedores_dados = some [fornecedorA] ∧
    (carregar_modelo (freshModelo : Modelo ℚ Unit Unit)
        (salvar_modelo modeloFrequencia storageVazio ("p")) ("p")).2 = true ∧
    recomendar libsQ
        (carregar_modelo (freshModelo : Modelo ℚ Unit Unit)
          (salvar_modelo modeloFrequencia storageVazio ("p")) ("p")).1
        licVazia 5
      = recomendar libsQ modeloFrequencia licVazia 5 :=
  ⟨rfl, rfl, rfl,
    (c5_roundtrip_frequencia libsQ modeloFrequencia storageVazio ("p")
      [1] [fornecedorA] rfl rfl rfl).1,
    (c5_roundtrip_frequencia libsQ modeloFrequencia storageVazio ("p")
      [1] [fornecedorA] rfl rfl rfl).2.2.2.2.2 licVazia 5⟩

/-- C10.  On a trained model with `N ≥ 1` candidates, `recomendar` with
`top_n = 0` returns all `N` candidates — the slice `[-0:]` selects the whole
similarity array — ordered by non-increasing score, not the empty list. -/
theorem c10_top_n_zero {V S T : Type} (ctx : Libs V S T) (m : Modelo V S T)
    (lic : Licitacao) (vetores : List V) (dados : List Fornecedor)
    (recs : List Recomendacao)
    (hv : m.fornecedores_vetores = some vetores)
    (hd : m.fornecedores_dados = some dados)
    (hlen : vetores.length = dados.length)
    (hN : 1 ≤ dados.length)
    (hok : recomendar ctx m lic 0 = .ok recs) :
    recs.length = dados.length ∧
    recs ≠ [] ∧
    List.Perm (recs.map (fun r => r.fornecedor)) dados ∧
    ((recs.map (fun r => r.pontuacao)).Sorted (· ≥ ·)) := by
  obtain ⟨qv, rfl⟩ := recomendar_ok_eq ctx m lic 0 vetores dados recs hv hd hok
  have hslen : (vetores.map (ctx.cosSim qv)).length = dados.length := by
    rw [List.length_map]
    exact hlen
  have hlength : (recomendacoesOf dados (vetores.map (ctx.cosSim qv)) 0).length
      = dados.length := by
    rw [recomendacoesOf_length _ _ _ hslen, if_pos rfl]
  refine ⟨hlength, ?_, ?_, recomendacoesOf_sorted _ _ _ hslen⟩
  · intro hnil
    rw [hnil] at hlength
    simp at hlength
    omega
  · rw [recomendacoesOf_fornecedores _ _ _ hslen]
    have hperm := (indicesTop_perm_zero (vetores.map (ctx.cosSim qv))).map
      (fun idx => dados.getD idx fornecedorDefault)
    have h2 : (List.range (vetores.map (ctx.cosSim qv)).length).map
        (fun idx => dados.getD idx fornecedorDefault) = dados := by
      rw [hslen]
      exact map_getD_range dados fornecedorDefault
    rw [h2] at hperm
    exact hperm

/-- C10, witness: the theorem applied to a concrete trained two-candidate
model with `top_n = 0`. -/
theorem c10_witness :
    modeloEmpate.fornecedores_vetores = some [0, 0] ∧
    modeloEmpate.fornecedores_dados = some [fornecedorA, fornecedorB] ∧
    1 ≤ [fornecedorA, fornecedorB].length ∧
    recomendar libsHalf modeloEmpate licVazia 0 =
      .ok [⟨fornecedorB, 50, 1⟩, ⟨fornecedorA, 50, 2⟩] ∧
    ([(⟨fornecedorB, 50, 1⟩ : Recomendacao), ⟨fornecedorA, 50, 2⟩].length
        = [fornecedorA, fornecedorB].length ∧
      ([(⟨fornecedorB, 50, 1⟩ : Recomendacao), ⟨fornecedorA, 50, 2⟩] : List Recomendacao) ≠ [] ∧
      List.Perm
        ([(⟨fornecedorB, 50, 1⟩ : Recomendacao), ⟨fornecedorA, 50, 2⟩].map (fun r => r.fornecedor))
        [fornecedorA, fornecedorB] ∧
      (([(⟨fornecedorB, 50, 1⟩ : Recomendacao), ⟨fornecedorA, 50, 2⟩].map (fun r => r.pontuacao)).Sorted (· ≥ ·))) :=
  ⟨rfl, rfl, by decide, recomendar_empate_zero,
    c10_top_n_zero libsHalf modeloEmpate licVazia [0, 0] [fornecedorA, fornecedorB]
      [⟨fornecedorB, 50, 1⟩, ⟨fornecedorA, 50, 2⟩] rfl rfl rfl (by decide)
      recomendar_empate_zero⟩
